import Mathlib

/-!
Verification of the token-budgeted context-assembly engine
(CompactFormatter / VerboseFormatter) of the MoltBrain repository.

JavaScript strings are sequences of UTF-16 code units; `String.prototype.length`
counts code units and `String.prototype.slice` indexes by code units.  We model
a JS string as `List Nat`, each element one code unit, and convert Lean string
literals through the UTF-16 encoding.
-/

/-- A JavaScript string: a list of UTF-16 code units. -/
abbrev JStr := List Nat

/-- UTF-16 encoding of one Unicode scalar value: one code unit for the
basic multilingual plane, a surrogate pair above it. -/
def utf16Encode (c : Char) : List Nat :=
  if c.toNat < 65536 then [c.toNat]
  else [55296 + (c.toNat - 65536) / 1024, 56320 + (c.toNat - 65536) % 1024]

/-- Convert a Lean string literal to its JS (UTF-16 code unit) form. -/
def jstr (s : String) : JStr :=
  (s.data.map utf16Encode).flatten

/-- Number of UTF-16 code units needed for a Lean string: BMP characters
contribute 1, characters above U+FFFF contribute 2. -/
def utf16Len (s : String) : Nat :=
  (s.data.map (fun c => if c.toNat < 65536 then 1 else 2)).sum

/-- Environment of JS builtins the formatters call.  These are external to the
repository (ECMAScript library functions), so they are parameters of the
embedding; every theorem quantifies over them. -/
structure Env where
  /-- Semantics of JSON.parse on a string followed by the Array.isArray check
  and the catch-all of parseArray: the array parsed from the string, or []
  when parsing fails or yields a non-array. -/
  jsonArray : JStr → List JStr
  /-- String.prototype.toUpperCase. -/
  toUpperCase : JStr → JStr
  /-- new Date(string).getTime(), milliseconds since the epoch. -/
  parseDate : JStr → Int
  /-- Date.prototype.toLocaleString at a given epoch time. -/
  toLocaleString : Int → JStr
  /-- Date.prototype.toLocaleDateString at a given epoch time. -/
  toLocaleDateString : Int → JStr

/-- A value of the loosely typed array fields (facts, concepts, files_read,
files_modified): a native array, a string, or null/undefined. -/
inductive JVal where
  | arr (xs : List JStr)
  | str (s : JStr)
  | undef
deriving DecidableEq

/-- JS truthiness of a JVal: arrays are always truthy (even empty), strings
are truthy when non-empty, null/undefined is falsy. -/
def jtruthy : JVal → Bool
  | .arr _ => true
  | .str s => !s.isEmpty
  | .undef => false

/-- The created_at field: a Date object (epoch milliseconds) or a string. -/
inductive DateVal where
  | date (ms : Int)
  | str (s : JStr)
deriving DecidableEq

/-- JS truthiness of created_at: Date objects are always truthy, strings are
truthy when non-empty. -/
def dtruthy : DateVal → Bool
  | .date _ => true
  | .str s => !s.isEmpty

/-- One Observation record, with the fields the formatters read.
Fields (in order): type, title, subtitle, narrative, facts, concepts,
files_read, files_modified, project, prompt_number, created_at. -/
structure Observation where
  type : JStr
  title : JStr
  subtitle : Option JStr
  narrative : Option JStr
  facts : JVal
  concepts : JVal
  files_read : JVal
  files_modified : JVal
  project : JStr
  prompt_number : Option Int
  created_at : Option DateVal
deriving DecidableEq

/-- One Summary record.  Fields (in order): request, investigated, learned,
completed, next_steps, notes, project, session_id. -/
structure Summary where
  request : Option JStr
  investigated : Option JStr
  learned : Option JStr
  completed : Option JStr
  next_steps : Option JStr
  notes : Option JStr
  project : JStr
  session_id : JStr
deriving DecidableEq

namespace CompactFormatter

/-- Resolved CompactFormatterOptions (constructor defaults already applied).
Fields (in order): maxNarrativeLength, includeFacts, includeConcepts,
includeFiles, separator. -/
structure Options where
  maxNarrativeLength : Int
  includeFacts : Bool
  includeConcepts : Bool
  includeFiles : Bool
  separator : JStr
deriving DecidableEq

/-- The constructor defaults: maxNarrativeLength 200, includeFacts true,
includeConcepts true, includeFiles false, separator " | ". -/
def defaults : Options :=
  ⟨200, true, true, false, jstr " | "⟩

/-- estimateTokens: Math.ceil(text.length / 4). -/
def estimateTokens (text : JStr) : Nat :=
  (text.length + 3) / 4

/-- String.prototype.slice(0, e): for a negative end index JS counts from the
end of the string (max(length + e, 0)); otherwise it clamps to the length. -/
def jsliceEnd (s : JStr) (e : Int) : JStr :=
  if e < 0 then s.take (s.length + e).toNat else s.take e.toNat

/-- truncate: return text unchanged when it fits, otherwise
text.slice(0, maxLength - 3) + "...". -/
def truncate (text : JStr) (maxLength : Int) : JStr :=
  if (text.length : Int) ≤ maxLength then text
  else jsliceEnd text (maxLength - 3) ++ jstr "..."

/-- parseArray: a native array is returned as is, a string goes through
JSON.parse with the Array.isArray check and the catch-all, anything else
yields []. -/
def parseArray (env : Env) : JVal → List JStr
  | .arr xs => xs
  | .str s => env.jsonArray s
  | .undef => []

/-- formatObservation (compact): [TYPE] Title, truncated narrative, up to
three facts, bracketed concepts, optionally up to three modified files,
joined by the separator.  Optional parts guarded by JS truthiness. -/
def formatObservation (env : Env) (opts : Options) (obs : Observation) : JStr :=
  List.intercalate opts.separator (
    [jstr "[" ++ env.toUpperCase obs.type ++ jstr "] " ++ obs.title]
    ++ (match obs.narrative with
        | some n => if n.isEmpty then [] else [truncate n opts.maxNarrativeLength]
        | none => [])
    ++ (if opts.includeFacts && jtruthy obs.facts then
          let facts := parseArray env obs.facts
          if facts.isEmpty then []
          else [jstr "Facts: " ++ List.intercalate (jstr "; ") (facts.take 3)]
        else [])
    ++ (if opts.includeConcepts && jtruthy obs.concepts then
          let concepts := parseArray env obs.concepts
          if concepts.isEmpty then []
          else [jstr "[" ++ List.intercalate (jstr ", ") concepts ++ jstr "]"]
        else [])
    ++ (if opts.includeFiles then
          let files := parseArray env obs.files_modified
          if files.isEmpty then []
          else [jstr "Files: " ++ List.intercalate (jstr ", ") (files.take 3)]
        else []))

/-- formatSummary (compact): Done / Learned / Next segments, independently
truncated to 150 / 150 / 100, joined by the separator; falsy slots omitted. -/
def formatSummary (opts : Options) (s : Summary) : JStr :=
  List.intercalate opts.separator (
    (match s.completed with
     | some c => if c.isEmpty then [] else [jstr "Done: " ++ truncate c 150]
     | none => [])
    ++ (match s.learned with
        | some l => if l.isEmpty then [] else [jstr "Learned: " ++ truncate l 150]
        | none => [])
    ++ (match s.next_steps with
        | some n => if n.isEmpty then [] else [jstr "Next: " ++ truncate n 100]
        | none => []))

/-- The rendered summary section of formatWithBudget:
"## Summary\n" + formatSummary(summary) + "\n\n". -/
def summaryText (opts : Options) (s : Summary) : JStr :=
  jstr "## Summary\n" ++ formatSummary opts s ++ jstr "\n\n"

/-- One observation line inside formatWithBudget:
formatObservation(obs) + "\n". -/
def renderLine (env : Env) (opts : Options) (obs : Observation) : JStr :=
  formatObservation env opts obs ++ jstr "\n"

/-- The for/break loop of formatWithBudget over the observation sequence:
append each rendered observation whose estimated tokens keep the running
total within maxTokens; break at the first one that does not fit. -/
def obsLoop (env : Env) (opts : Options) (max : Int) :
    JStr → Nat → List Observation → JStr × Nat
  | result, total, [] => (result, total)
  | result, total, o :: rest =>
      let obsTokens := estimateTokens (renderLine env opts o)
      if ((total + obsTokens : Nat) : Int) > max then (result, total)
      else obsLoop env opts max (result ++ renderLine env opts o) (total + obsTokens) rest

/-- The observations block of formatWithBudget: when the sequence is
non-empty, append the "## Observations\n" heading, charge the hardcoded
5 header tokens, and run the loop. -/
def obsSection (env : Env) (opts : Options) (max : Int)
    (result : JStr) (total : Nat) (observations : List Observation) : JStr × Nat :=
  if observations.isEmpty then (result, total)
  else obsLoop env opts max (result ++ jstr "## Observations\n") (total + 5) observations

/-- The summary step of formatWithBudget: the pair (result, currentTokens)
after the optional summary block has been processed. -/
def startState (opts : Options) (summary : Option Summary) (max : Int) : JStr × Nat :=
  match summary with
  | none => ([], 0)
  | some s =>
      let st := summaryText opts s
      let stTok := estimateTokens st
      if (stTok : Int) < max then (st, stTok) else ([], 0)

/-- formatWithBudget, exposing the pair of the returned string and the final
value of the local currentTokens accumulator. -/
def formatWithBudgetAux (env : Env) (opts : Options)
    (observations : List Observation) (summary : Option Summary) (max : Int) :
    JStr × Nat :=
  obsSection env opts max (startState opts summary max).1 (startState opts summary max).2
    observations

/-- formatWithBudget as the source returns it: just the assembled string. -/
def formatWithBudget (env : Env) (opts : Options)
    (observations : List Observation) (summary : Option Summary) (max : Int) : JStr :=
  (formatWithBudgetAux env opts observations summary max).1

/-- Number of loop iterations of obsLoop that append their observation,
i.e. the number of observations included in the output, as a function of
the loop entry running total. -/
def countLoop (env : Env) (opts : Options) (max : Int) :
    Nat → List Observation → Nat
  | _, [] => 0
  | total, o :: rest =>
      let obsTokens := estimateTokens (renderLine env opts o)
      if ((total + obsTokens : Nat) : Int) > max then 0
      else countLoop env opts max (total + obsTokens) rest + 1

/-- Number of observations included by formatWithBudget. -/
def includedCount (env : Env) (opts : Options)
    (observations : List Observation) (summary : Option Summary) (max : Int) : Nat :=
  if observations.isEmpty then 0
  else countLoop env opts max ((startState opts summary max).2 + 5) observations

/-- Total estimated tokens of a list of rendered observation lines. -/
def sumTok (env : Env) (opts : Options) (l : List Observation) : Nat :=
  (l.map (fun o => estimateTokens (renderLine env opts o))).sum

end CompactFormatter

namespace VerboseFormatter

/-- The dateFormat option: relative, absolute, or both. -/
inductive DateFormat where
  | relative
  | absolute
  | both
deriving DecidableEq

/-- Resolved VerboseFormatterOptions.  Fields (in order): includeMetadata,
includeTimestamps, includeAllFiles, dateFormat. -/
structure Options where
  includeMetadata : Bool
  includeTimestamps : Bool
  includeAllFiles : Bool
  dateFormat : DateFormat
deriving DecidableEq

/-- The constructor defaults: includeMetadata true, includeTimestamps true,
includeAllFiles true, dateFormat both. -/
def defaults : Options :=
  ⟨true, true, true, .both⟩

/-- parseArray of VerboseFormatter (same body as the compact one). -/
def parseArray (env : Env) : JVal → List JStr
  | .arr xs => xs
  | .str s => env.jsonArray s
  | .undef => []

/-- getTypeEmoji: emoji lookup by observation type, default pencil. -/
def getTypeEmoji (type : JStr) : JStr :=
  if type = jstr "discovery" then jstr "🔍"
  else if type = jstr "decision" then jstr "⚖️"
  else if type = jstr "implementation" then jstr "🔧"
  else if type = jstr "issue" then jstr "🐛"
  else if type = jstr "learning" then jstr "📚"
  else if type = jstr "reference" then jstr "🔗"
  else jstr "📝"

/-- getRelativeTime: the difference between the current clock Date.now()
(the explicit `now` parameter of the embedding) and the record timestamp,
bucketed into just now / minutes / hours / days, falling back to
toLocaleDateString.  Math.floor on a division of integers is floor
division. -/
def getRelativeTime (env : Env) (now t : Int) : JStr :=
  let diff := now - t
  let minutes := Int.fdiv diff 60000
  let hours := Int.fdiv diff 3600000
  let days := Int.fdiv diff 86400000
  if minutes < 1 then jstr "just now"
  else if minutes < 60 then jstr (toString minutes) ++ jstr "m ago"
  else if hours < 24 then jstr (toString hours) ++ jstr "h ago"
  else if days < 7 then jstr (toString days) ++ jstr "d ago"
  else env.toLocaleDateString t

/-- formatDate: convert a string date via the Date constructor, then render
per the dateFormat option; the default case of the switch equals the both
case. -/
def formatDate (env : Env) (opts : Options) (now : Int) (d : DateVal) : JStr :=
  let t := match d with
    | .date ms => ms
    | .str s => env.parseDate s
  match opts.dateFormat with
  | .relative => getRelativeTime env now t
  | .absolute => env.toLocaleString t
  | .both => getRelativeTime env now t ++ jstr " (" ++ env.toLocaleString t ++ jstr ")"

/-- formatObservation (verbose): the lines array of the source, joined by
newlines.  The `now` parameter is the ambient clock Date.now() read by
getRelativeTime during the call.  96 is the code unit of the backquote
used around concepts. -/
def formatObservation (env : Env) (opts : Options) (now : Int)
    (obs : Observation) : JStr :=
  List.intercalate (jstr "\n") (
    [jstr "## " ++ getTypeEmoji obs.type ++ jstr " " ++ obs.title, []]
    ++ (match obs.subtitle with
        | some s => if s.isEmpty then [] else [jstr "*" ++ s ++ jstr "*", []]
        | none => [])
    ++ (match obs.narrative with
        | some n => if n.isEmpty then [] else [n, []]
        | none => [])
    ++ (let facts := parseArray env obs.facts
        if facts.isEmpty then []
        else [jstr "### Key Facts"] ++ facts.map (fun f => jstr "- " ++ f) ++ [[]])
    ++ (let concepts := parseArray env obs.concepts
        if concepts.isEmpty then []
        else [jstr "**Concepts:** "
                ++ List.intercalate (jstr " ") (concepts.map (fun c => [96] ++ c ++ [96])),
              []])
    ++ (if opts.includeAllFiles then
          (let filesRead := parseArray env obs.files_read
           if filesRead.isEmpty then []
           else [jstr "**Files Read:**"]
                ++ filesRead.map (fun f => jstr "- " ++ [96] ++ f ++ [96]) ++ [[]])
          ++ (let filesModified := parseArray env obs.files_modified
              if filesModified.isEmpty then []
              else [jstr "**Files Modified:**"]
                   ++ filesModified.map (fun f => jstr "- " ++ [96] ++ f ++ [96]) ++ [[]])
        else [])
    ++ (if opts.includeMetadata then
          [jstr "*"
             ++ List.intercalate (jstr " | ") (
                  [jstr "Project: " ++ obs.project, jstr "Type: " ++ obs.type]
                  ++ (match obs.prompt_number with
                      | some n => if n ≠ 0 then [jstr "Prompt #" ++ jstr (toString n)] else []
                      | none => [])
                  ++ (if opts.includeTimestamps then
                        match obs.created_at with
                        | some d => if dtruthy d then [formatDate env opts now d] else []
                        | none => []
                      else []))
             ++ jstr "*"]
        else []))

end VerboseFormatter

/-- ASCII uppercasing per code unit; agrees with the JS toUpperCase on the
ASCII strings used in the concrete instances below. -/
def asciiUpper (s : JStr) : JStr :=
  s.map (fun c => if 97 ≤ c ∧ c ≤ 122 then c - 32 else c)

/-- A concrete environment used by witnesses and counterexamples: JSON
parsing never yields an array, uppercasing is the ASCII map, locale
rendering is empty. -/
def envC : Env :=
  ⟨fun _ => [], asciiUpper, fun _ => 0, fun _ => [], fun _ => []⟩

/-- A concrete observation whose compact rendering is "[T] abcdefghijkl"
(16 code units, 17 with the trailing newline, 5 estimated tokens). -/
def obsA : Observation :=
  ⟨jstr "t", jstr "abcdefghijkl", none, none, .undef, .undef, .undef, .undef,
   jstr "p", none, none⟩

/-- A concrete summary whose compact summary section is
"## Summary\nDone: abcdefghijklmnopqr\n\n" (37 code units, 10 estimated
tokens). -/
def sumA : Summary :=
  ⟨none, none, none, some (jstr "abcdefghijklmnopqr"), none, none,
   jstr "p", jstr "s"⟩

/-- A concrete observation carrying a Date-typed created_at at epoch 0,
used to exercise the clock dependence of the verbose formatter. -/
def obsT : Observation :=
  ⟨jstr "x", jstr "t", none, none, .undef, .undef, .undef, .undef,
   jstr "p", none, some (.date 0)⟩

/-- Verbose options selecting the relative date format, with metadata and
timestamps on. -/
def voptsRel : VerboseFormatter.Options :=
  ⟨true, true, true, .relative⟩

-- Sanity checks of the string model.
example : (jstr "## Observations\n").length = 16 := by decide
example : CompactFormatter.estimateTokens (jstr "## Observations\n") = 4 := by decide
example : (jstr "## Summary\n").length = 11 := by decide
example : (jstr "😀").length = 2 := by decide
example :
    CompactFormatter.estimateTokens
      (CompactFormatter.renderLine envC CompactFormatter.defaults obsA) = 5 := by decide
example :
    CompactFormatter.estimateTokens
      (CompactFormatter.summaryText CompactFormatter.defaults sumA) = 10 := by decide
example :
    CompactFormatter.includedCount envC CompactFormatter.defaults
      [obsA] (some sumA) 10 = 1 := by decide
example :
    CompactFormatter.includedCount envC CompactFormatter.defaults
      [obsA] (some sumA) 11 = 0 := by decide
example :
    VerboseFormatter.formatObservation envC voptsRel 0 obsT ≠
      VerboseFormatter.formatObservation envC voptsRel 7200000 obsT := by decide

namespace CompactFormatter

/-- The loop of formatWithBudget appends exactly the rendered lines of the
first countLoop-many observations, and adds exactly their tokens to the
running total. -/
lemma obsLoop_eq (env : Env) (opts : Options) (max : Int) (l : List Observation) :
    ∀ (res : JStr) (total : Nat),
      obsLoop env opts max res total l =
        (res ++ ((l.take (countLoop env opts max total l)).map (renderLine env opts)).flatten,
         total + sumTok env opts (l.take (countLoop env opts max total l))) := by
  induction l with
  | nil => intro res total; simp [obsLoop, countLoop, sumTok]
  | cons o rest ih =>
      intro res total
      simp only [obsLoop, countLoop]
      split_ifs with hc
      · simp [sumTok]
      · rw [ih]
        simp [sumTok, List.append_assoc, Nat.add_assoc]

/-- When the loop stops before exhausting the sequence, the very next
observation would push the running total past the budget. -/
lemma obsLoop_stop (env : Env) (opts : Options) (max : Int) (l : List Observation) :
    ∀ (total : Nat) (h : countLoop env opts max total l < l.length),
      ((total + sumTok env opts (l.take (countLoop env opts max total l))
          + estimateTokens (renderLine env opts (l.get ⟨countLoop env opts max total l, h⟩))
        : Nat) : Int) > max := by
  induction l with
  | nil => intro total h; simp [countLoop] at h
  | cons o rest ih =>
      intro total h
      rcases Decidable.em
          (((total + estimateTokens (renderLine env opts o) : Nat) : Int) > max) with hc | hc
      · have hcount : countLoop env opts max total (o :: rest) = 0 := by
          simp only [countLoop]
          rw [if_pos]
          push_cast
          push_cast at hc
          exact hc
        simp only [hcount, List.take_zero, List.get] at h ⊢
        simp only [sumTok, List.map_nil, List.sum_nil]
        push_cast
        push_cast at hc
        omega
      · have hcount : countLoop env opts max total (o :: rest) =
            countLoop env opts max (total + estimateTokens (renderLine env opts o)) rest + 1 := by
          simp only [countLoop]
          rw [if_neg]
          push_cast
          push_cast at hc
          exact hc
        simp only [hcount, List.take_succ_cons, List.get_cons_succ] at h ⊢
        have h2 : countLoop env opts max (total + estimateTokens (renderLine env opts o)) rest
            < rest.length := Nat.lt_of_succ_lt_succ h
        have hi := ih (total + estimateTokens (renderLine env opts o)) h2
        simp only [sumTok, List.map_cons, List.sum_cons] at hi ⊢
        push_cast
        push_cast at hi
        omega

/-- The final running total of the loop either is unchanged (no observation
fit) or stays within the budget. -/
lemma obsLoop_total (env : Env) (opts : Options) (max : Int) (l : List Observation) :
    ∀ (res : JStr) (total : Nat),
      (obsLoop env opts max res total l).2 = total ∨
        (((obsLoop env opts max res total l).2 : Nat) : Int) ≤ max := by
  induction l with
  | nil => intro res total; left; rfl
  | cons o rest ih =>
      intro res total
      simp only [obsLoop]
      split_ifs with hc
      · left; rfl
      · rcases ih (res ++ renderLine env opts o) (total + estimateTokens (renderLine env opts o))
          with h | h
        · right
          rw [h]
          push_cast
          push_cast at hc
          omega
        · right
          exact h

/-- With the same entry total, a larger budget never admits fewer
observations. -/
lemma countLoop_mono (env : Env) (opts : Options) {m1 m2 : Int} (h : m1 ≤ m2)
    (l : List Observation) :
    ∀ total : Nat, countLoop env opts m1 total l ≤ countLoop env opts m2 total l := by
  induction l with
  | nil => intro total; simp [countLoop]
  | cons o rest ih =>
      intro total
      simp only [countLoop]
      split_ifs with h1 h2 h2
      · exact Nat.zero_le _
      · exact Nat.zero_le _
      · exfalso
        push_cast at h1 h2
        omega
      · exact Nat.succ_le_succ (ih _)

/-- The loop never counts more observations than offered. -/
lemma countLoop_le_length (env : Env) (opts : Options) (max : Int) (l : List Observation) :
    ∀ total : Nat, countLoop env opts max total l ≤ l.length := by
  induction l with
  | nil => intro total; simp [countLoop]
  | cons o rest ih =>
      intro total
      simp only [countLoop, List.length_cons]
      split_ifs with hc
      · exact Nat.zero_le _
      · exact Nat.succ_le_succ (ih _)

/-- The rendered summary section is at least 13 code units, hence at least
4 estimated tokens. -/
lemma summaryText_tokens (opts : Options) (s : Summary) :
    4 ≤ estimateTokens (summaryText opts s) := by
  have h11 : (jstr "## Summary\n").length = 11 := by decide
  have h2 : (jstr "\n\n").length = 2 := by decide
  simp only [summaryText, estimateTokens, List.length_append, h11, h2]
  omega

/-- The running total after the summary step is strictly below any positive
budget: the summary is only admitted when its tokens are strictly below the
budget, and otherwise the total is 0. -/
lemma startState_lt (opts : Options) (summary : Option Summary) {max : Int}
    (h : 0 < max) :
    (((startState opts summary max).2 : Nat) : Int) < max := by
  rcases summary with _ | s
  · simpa [startState] using h
  · simp only [startState]
    split_ifs with hc
    · simpa using hc
    · simpa using h

end CompactFormatter

open CompactFormatter

/-- Claim C1: for every candidate set and budget maxTokens > 0, the final
running token total of formatWithBudget never exceeds maxTokens + 5, where
5 is the constant the code charges for the observations heading; with an
empty observation sequence the total never exceeds maxTokens. -/
theorem C1_budget_respect (env : Env) (opts : Options)
    (observations : List Observation) (summary : Option Summary) (max : Int)
    (h : 0 < max) :
    (((formatWithBudgetAux env opts observations summary max).2 : Nat) : Int) ≤ max + 5 ∧
      (observations = [] →
        (((formatWithBudgetAux env opts observations summary max).2 : Nat) : Int) ≤ max) := by
  have hs := startState_lt opts summary h
  constructor
  · simp only [formatWithBudgetAux, obsSection]
    split_ifs with he
    · omega
    · rcases obsLoop_total env opts max observations
          ((startState opts summary max).1 ++ jstr "## Observations\n")
          ((startState opts summary max).2 + 5) with h2 | h2
      · rw [h2]; push_cast; push_cast at hs; omega
      · omega
  · intro hobs
    subst hobs
    simpa [formatWithBudgetAux, obsSection] using le_of_lt hs

/-- Witness for C1 at a concrete input. -/
theorem C1_budget_respect_witness :
    (((formatWithBudgetAux envC defaults [obsA] none 1).2 : Nat) : Int) ≤ 1 + 5 ∧
      ([obsA] = [] →
        (((formatWithBudgetAux envC defaults [obsA] none 1).2 : Nat) : Int) ≤ 1) :=
  C1_budget_respect envC defaults [obsA] none 1 (by decide)

/-- Claim C2: the observations included in the output are exactly a prefix
of the input sequence, in input order: the output text appends the rendered
lines of the first k candidates for some k, and when k is not the whole
sequence, the very next candidate is the first whose tokens would push the
running total past maxTokens (the loop stops there). -/
theorem C2_order_preservation (env : Env) (opts : Options)
    (observations : List Observation) (summary : Option Summary) (max : Int) :
    ∃ k, k ≤ observations.length ∧
      (formatWithBudgetAux env opts observations summary max).1
        = (startState opts summary max).1
          ++ (if observations.isEmpty then []
              else jstr "## Observations\n"
                ++ ((observations.take k).map (renderLine env opts)).flatten) ∧
      (∀ h : k < observations.length,
        ((((startState opts summary max).2 + 5 + sumTok env opts (observations.take k)
            + estimateTokens (renderLine env opts (observations.get ⟨k, h⟩))) : Nat) : Int)
          > max) := by
  by_cases he : observations.isEmpty
  · refine ⟨0, Nat.zero_le _, ?_, ?_⟩
    · have hnil : observations = [] := by simpa [List.isEmpty_iff] using he
      subst hnil
      simp [formatWithBudgetAux, obsSection]
    · intro hlt
      have hnil : observations = [] := by simpa [List.isEmpty_iff] using he
      subst hnil
      simp at hlt
  · refine ⟨countLoop env opts max ((startState opts summary max).2 + 5) observations,
      countLoop_le_length env opts max observations _, ?_, ?_⟩
    · simp only [formatWithBudgetAux, obsSection, he, if_neg, ite_false]
      rw [obsLoop_eq]
      simp [List.append_assoc]
    · intro hlt
      have := obsLoop_stop env opts max observations
        ((startState opts summary max).2 + 5) hlt
      omega

/-- Witness for C2 at a concrete input. -/
theorem C2_order_preservation_witness :
    ∃ k, k ≤ ([obsA] : List Observation).length ∧
      (formatWithBudgetAux envC defaults [obsA] none 100).1
        = (startState defaults none 100).1
          ++ (if ([obsA] : List Observation).isEmpty then []
              else jstr "## Observations\n"
                ++ ((([obsA] : List Observation).take k).map (renderLine envC defaults)).flatten) ∧
      (∀ h : k < ([obsA] : List Observation).length,
        ((((startState defaults none 100).2 + 5
            + sumTok envC defaults (([obsA] : List Observation).take k)
            + estimateTokens (renderLine envC defaults
                (([obsA] : List Observation).get ⟨k, h⟩))) : Nat) : Int) > 100) :=
  C2_order_preservation envC defaults [obsA] none 100

/-- Claim C3 (amended): with the summary step resolving identically at both
budgets, a larger budget never includes fewer observations. -/
theorem C3_monotonicity (env : Env) (opts : Options)
    (observations : List Observation) (summary : Option Summary) (m1 m2 : Int)
    (h12 : m1 ≤ m2)
    (hsame : startState opts summary m1 = startState opts summary m2) :
    includedCount env opts observations summary m1
      ≤ includedCount env opts observations summary m2 := by
  simp only [includedCount]
  split_ifs with he
  · exact Nat.le_refl 0
  · rw [hsame]
    exact countLoop_mono env opts h12 observations _

/-- Witness for C3 at a concrete input. -/
theorem C3_monotonicity_witness :
    includedCount envC defaults [obsA] none 3 ≤ includedCount envC defaults [obsA] none 100 :=
  C3_monotonicity envC defaults [obsA] none 3 100 (by decide) rfl

/-- Counterexample to C3 as stated: with a candidate set holding a 10-token
summary and one 5-token observation, budget 10 includes 1 observation but
the larger budget 11 includes 0 (the summary is newly admitted at 11 and
eats the headroom). -/
theorem C3_counterexample :
    (10 : Int) ≤ 11 ∧
      includedCount envC defaults [obsA] (some sumA) 11
        < includedCount envC defaults [obsA] (some sumA) 10 := by
  decide

/-- Claim C4 (amended): when the observation sequence is non-empty the
packer charges the hardcoded constant 5 for the observations heading,
exactly once and before any individual observation is evaluated; this
constant differs from estimateTokens("## Observations\n"), which is 4. -/
theorem C4_heading_cost (env : Env) (opts : Options)
    (observations : List Observation) (summary : Option Summary) (max : Int)
    (h : observations ≠ []) :
    (formatWithBudgetAux env opts observations summary max).2
        = (startState opts summary max).2 + 5
          + sumTok env opts
              (observations.take (includedCount env opts observations summary max)) ∧
      estimateTokens (jstr "## Observations\n") = 4 := by
  constructor
  · have he : ¬ (observations.isEmpty = true) := by simpa [List.isEmpty_iff] using h
    simp only [formatWithBudgetAux, obsSection, includedCount]
    rw [if_neg he, if_neg he, obsLoop_eq]
  · decide

/-- Witness for C4 at a concrete input. -/
theorem C4_heading_cost_witness :
    (formatWithBudgetAux envC defaults [obsA] none 100).2
        = (startState defaults none 100).2 + 5
          + sumTok envC defaults ([obsA].take (includedCount envC defaults [obsA] none 100)) ∧
      estimateTokens (jstr "## Observations\n") = 4 :=
  C4_heading_cost envC defaults [obsA] none 100 (by decide)

/-- Counterexample to C4 as stated: with one observation and budget 0 the
only contribution to the total is the heading charge, and it is 5, not
estimateTokens("## Observations\n") = 4. -/
theorem C4_counterexample :
    (formatWithBudgetAux envC defaults [obsA] none 0).2
      ≠ estimateTokens (jstr "## Observations\n") := by
  decide

/-- Claim C5: the summary is all-or-nothing: when its estimated tokens are
strictly below maxTokens the whole rendered section is appended and its
tokens added to the running total; otherwise the call behaves exactly as if
no summary had been passed. -/
theorem C5_summary_all_or_nothing (env : Env) (opts : Options)
    (observations : List Observation) (s : Summary) (max : Int) :
    (((estimateTokens (summaryText opts s) : Nat) : Int) < max →
      ∃ r t, formatWithBudgetAux env opts observations (some s) max
          = (summaryText opts s ++ r, estimateTokens (summaryText opts s) + t)) ∧
      (¬ ((estimateTokens (summaryText opts s) : Nat) : Int) < max →
        formatWithBudgetAux env opts observations (some s) max
          = formatWithBudgetAux env opts observations none max) := by
  constructor
  · intro hin
    have hst : startState opts (some s) max
        = (summaryText opts s, estimateTokens (summaryText opts s)) := by
      simp only [startState]
      rw [if_pos hin]
    simp only [formatWithBudgetAux, hst, obsSection]
    split_ifs with he
    · exact ⟨[], 0, by simp⟩
    · refine ⟨jstr "## Observations\n"
          ++ ((observations.take (countLoop env opts max
                (estimateTokens (summaryText opts s) + 5) observations)).map
              (renderLine env opts)).flatten,
        5 + sumTok env opts (observations.take (countLoop env opts max
              (estimateTokens (summaryText opts s) + 5) observations)), ?_⟩
      rw [obsLoop_eq]
      simp [List.append_assoc, Nat.add_assoc]
  · intro hout
    have hst : startState opts (some s) max = ([], 0) := by
      simp only [startState]
      rw [if_neg hout]
    simp only [formatWithBudgetAux]
    rw [hst]
    rfl

/-- Witness for C5 at a concrete input (the summary section of sumA has 10
tokens, so it is excluded at budget 1 and the call collapses to the
no-summary call). -/
theorem C5_summary_all_or_nothing_witness :
    (((estimateTokens (summaryText defaults sumA) : Nat) : Int) < 1 →
      ∃ r t, formatWithBudgetAux envC defaults [obsA] (some sumA) 1
          = (summaryText defaults sumA ++ r, estimateTokens (summaryText defaults sumA) + t)) ∧
      (¬ ((estimateTokens (summaryText defaults sumA) : Nat) : Int) < 1 →
        formatWithBudgetAux envC defaults [obsA] (some sumA) 1
          = formatWithBudgetAux envC defaults [obsA] none 1) :=
  C5_summary_all_or_nothing envC defaults [obsA] sumA 1

/-- Claim C6: any budget below the charged heading cost 5 (in particular 0
and negative budgets) degrades gracefully: the summary is never included,
and a non-empty observation sequence yields exactly the bare observations
heading with zero rendered observations (total 5). -/
theorem C6_small_budget (env : Env) (opts : Options)
    (observations : List Observation) (summary : Option Summary) (max : Int)
    (h : max < 5) :
    formatWithBudgetAux env opts observations summary max
      = (if observations.isEmpty then [] else jstr "## Observations\n",
         if observations.isEmpty then 0 else 5) := by
  have hstart : startState opts summary max = ([], 0) := by
    rcases summary with _ | s
    · rfl
    · have h4 := summaryText_tokens opts s
      simp only [startState]
      rw [if_neg (by omega)]
  simp only [formatWithBudgetAux, hstart, obsSection]
  split_ifs with he
  · rfl
  · rcases observations with _ | ⟨o, rest⟩
    · simp at he
    · simp only [obsLoop]
      split_ifs with hc
      · simp
      · exfalso
        push_cast at hc
        omega

/-- Witness for C6 at a concrete input: budget 0 with a summary and one
observation yields the bare heading and total 5. -/
theorem C6_small_budget_witness :
    formatWithBudgetAux envC defaults [obsA] (some sumA) 0
      = (if ([obsA] : List Observation).isEmpty then [] else jstr "## Observations\n",
         if ([obsA] : List Observation).isEmpty then 0 else 5) :=
  C6_small_budget envC defaults [obsA] (some sumA) 0 (by decide)

/-- One UTF-16 code unit for a BMP character, two for an astral one. -/
lemma utf16Encode_length (c : Char) :
    (utf16Encode c).length = if c.toNat < 65536 then 1 else 2 := by
  by_cases h : c.toNat < 65536 <;> simp [utf16Encode, h]

/-- Claim C7 (amended): estimateTokens(s) = ceil(u/4) where u counts UTF-16
code units of s (characters in the basic multilingual plane, including
multi-byte UTF-8 ones, count as 1; characters above U+FFFF count as 2);
the empty string yields 0 and the function is total. -/
theorem C7_estimate_tokens (s : String) :
    estimateTokens (jstr s) = (utf16Len s + 3) / 4 ∧ estimateTokens (jstr "") = 0 := by
  constructor
  · have hlen : (jstr s).length = utf16Len s := by
      simp [jstr, utf16Len, List.length_flatten, List.map_map, Function.comp_def,
        utf16Encode_length]
    rw [estimateTokens, hlen]
  · decide

/-- Counterexample to C7 as stated: on four astral characters the code
computes ceil(8/4) = 2 from the 8 UTF-16 code units, not ceil(4/4) = 1
from the 4 characters. -/
theorem C7_counterexample :
    estimateTokens (jstr "😀😀😀😀") ≠ (String.length "😀😀😀😀" + 3) / 4 := by
  decide

/-- Modelled from the spec wording of truncation, for comparison with the
implementation: when longer than maxLength, cut to maxLength - 3 units and
append "...", otherwise leave unchanged. -/
def truncSpec (m : Nat) (t : JStr) : JStr :=
  if t.length ≤ m then t else t.take (m - 3) ++ jstr "..."

/-- The code truncation agrees with the spec description for any ceiling of
at least 3. -/
lemma truncate_eq_spec (t : JStr) (mi : Int) (m : Nat) (hmi : mi = (m : Int))
    (hm : 3 ≤ m) : truncate t mi = truncSpec m t := by
  subst hmi
  simp only [truncate, truncSpec, jsliceEnd]
  by_cases h : t.length ≤ m
  · rw [if_pos (by exact_mod_cast h), if_pos h]
  · rw [if_neg (by exact_mod_cast h), if_neg h, if_neg (by omega)]
    congr 2
    omega

/-- Claim C8: compact truncation cuts a too-long narrative to
maxLength - 3 units plus "..." (default ceiling 200) and leaves short ones
unchanged; the Done/Learned/Next summary segments are independently
truncated with ceilings 150, 150 and 100; a 160-unit completed slot
renders as "Done: " plus its first 147 units plus "...". -/
theorem C8_compact_truncation (opts : Options) (s : Summary) (c l n : JStr)
    (hc : s.completed = some c) (hc2 : c ≠ [])
    (hl : s.learned = some l) (hl2 : l ≠ [])
    (hn : s.next_steps = some n) (hn2 : n ≠ []) :
    (∀ t : JStr, truncate t 200 = truncSpec 200 t) ∧
      formatSummary opts s
        = List.intercalate opts.separator
            [jstr "Done: " ++ truncSpec 150 c,
             jstr "Learned: " ++ truncSpec 150 l,
             jstr "Next: " ++ truncSpec 100 n] ∧
      (c.length = 160 → truncSpec 150 c = c.take 147 ++ jstr "...") := by
  refine ⟨fun t => truncate_eq_spec t 200 200 (by norm_num) (by norm_num), ?_, ?_⟩
  · have hce : ¬ (c.isEmpty = true) := by simpa [List.isEmpty_iff] using hc2
    have hle : ¬ (l.isEmpty = true) := by simpa [List.isEmpty_iff] using hl2
    have hne : ¬ (n.isEmpty = true) := by simpa [List.isEmpty_iff] using hn2
    simp only [formatSummary, hc, hl, hn]
    rw [if_neg hce, if_neg hle, if_neg hne,
      truncate_eq_spec c 150 150 (by norm_num) (by norm_num),
      truncate_eq_spec l 150 150 (by norm_num) (by norm_num),
      truncate_eq_spec n 100 100 (by norm_num) (by norm_num)]
    rfl
  · intro h160
    simp [truncSpec, h160]

/-- Witness for C8 at a concrete input: completed is 160 units of code 97,
learned and next_steps are short. -/
theorem C8_compact_truncation_witness :
    (∀ t : JStr, truncate t 200 = truncSpec 200 t) ∧
      formatSummary defaults
          ⟨none, none, some (List.replicate 5 98), some (List.replicate 160 97),
           some (List.replicate 5 99), none, jstr "p", jstr "s"⟩
        = List.intercalate defaults.separator
            [jstr "Done: " ++ truncSpec 150 (List.replicate 160 97),
             jstr "Learned: " ++ truncSpec 150 (List.replicate 5 98),
             jstr "Next: " ++ truncSpec 100 (List.replicate 5 99)] ∧
      ((List.replicate 160 97 : JStr).length = 160 →
        truncSpec 150 (List.replicate 160 97)
          = (List.replicate 160 97 : JStr).take 147 ++ jstr "...") :=
  C8_compact_truncation defaults
    ⟨none, none, some (List.replicate 5 98), some (List.replicate 160 97),
     some (List.replicate 5 99), none, jstr "p", jstr "s"⟩
    (List.replicate 160 97) (List.replicate 5 98) (List.replicate 5 99)
    rfl (by decide) rfl (by decide) rfl (by decide)

/-- Claim C9 (amended): rendering is a pure function of the record, the
options and the ambient clock; the clock enters only through the timestamp
metadata of the verbose observation renderer, so with includeTimestamps
off, or without a created_at value, the verbose output is identical at any
two clock readings (and the compact renderers take no clock input at all). -/
theorem C9_determinism (env : Env) (opts : VerboseFormatter.Options) (t1 t2 : Int)
    (obs : Observation)
    (h : opts.includeTimestamps = false ∨ obs.created_at = none) :
    VerboseFormatter.formatObservation env opts t1 obs
      = VerboseFormatter.formatObservation env opts t2 obs := by
  rcases h with h | h <;> simp [VerboseFormatter.formatObservation, h]

/-- Witness for C9 at a concrete input: timestamps disabled. -/
theorem C9_determinism_witness :
    VerboseFormatter.formatObservation envC ⟨true, false, true, .both⟩ 0 obsT
      = VerboseFormatter.formatObservation envC ⟨true, false, true, .both⟩ 999 obsT :=
  C9_determinism envC ⟨true, false, true, .both⟩ 0 999 obsT (Or.inl rfl)

/-- Counterexample to C9 as stated: with metadata and timestamps on and the
relative date format, rendering the same observation (created_at at epoch
0) at clock 0 and at clock 7200000 yields different strings ("just now"
versus "2h ago" in the metadata line). -/
theorem C9_counterexample :
    VerboseFormatter.formatObservation envC voptsRel 0 obsT
      ≠ VerboseFormatter.formatObservation envC voptsRel 7200000 obsT := by
  decide

/-- Claim C10: for a ceiling of at least 3 and input longer than the
ceiling, truncate returns exactly the first maxLength - 3 units followed by
"...", of length exactly maxLength; for a ceiling below 3 the result can
exceed the ceiling. -/
theorem C10_truncate_bound (s : JStr) (m : Int) (h3 : 3 ≤ m)
    (hlen : m < (s.length : Int)) :
    truncate s m = s.take (m - 3).toNat ++ jstr "..." ∧
      ((truncate s m).length : Int) = m ∧
      ∃ (t : JStr) (m2 : Int), m2 < 3 ∧ m2 < (t.length : Int) ∧
        m2 < ((truncate t m2).length : Int) := by
  have heq : truncate s m = s.take (m - 3).toNat ++ jstr "..." := by
    simp only [truncate, jsliceEnd]
    rw [if_neg (by omega), if_neg (by omega)]
  refine ⟨heq, ?_, ⟨[97, 98, 99], 2, by decide, by decide, by decide⟩⟩
  rw [heq]
  have hdots : (jstr "...").length = 3 := by decide
  simp only [List.length_append, List.length_take, hdots]
  omega

/-- Witness for C10 at a concrete input: a 5-unit string with ceiling 4. -/
theorem C10_truncate_bound_witness :
    truncate [97, 98, 99, 100, 101] 4
        = ([97, 98, 99, 100, 101] : JStr).take ((4 : Int) - 3).toNat ++ jstr "..." ∧
      ((truncate [97, 98, 99, 100, 101] 4).length : Int) = 4 ∧
      ∃ (t : JStr) (m2 : Int), m2 < 3 ∧ m2 < (t.length : Int) ∧
        m2 < ((truncate t m2).length : Int) :=
  C10_truncate_bound [97, 98, 99, 100, 101] 4 (by decide) (by decide)
